import Mathlib

/-!
Shallow embedding of `src/hooks/useChat.tsx` (the `useChat` hook of the
AspireWithAlina teacher desktop client).

React `useState` cells become fields of `ChatState`; each socket handler or
emit helper becomes a pure function `ChatState → … → StepResult` returning the
updated state together with the list of socket emissions (`emit` calls) and the
console output (`console.log` / `console.error`) it performed, in order.
JavaScript string fields that the code tests for truthiness
(`info.teacherID` etc.) are embedded as `Option String`, with `truthy`
capturing JS truthiness (`undefined`/`null`/`""` are falsy).  The `chats`
object is embedded as an association list, with `insertOrReplace` mirroring
the spread update `{...chats, [chatId]: c}` (an existing key is overwritten in
place, a new key is appended).  JS number timestamps are embedded as `Int`.
`Array.prototype.toSorted` with comparator `(a, b) => b.ts - a.ts` is a stable
descending sort by timestamp, embedded as `List.mergeSort` with the total
boolean relation `b.ts ≤ a.ts`.
-/

/-- Mirror of the `ChatUser` interface. -/
structure ChatUser where
  userId : String
  userType : String
  preferredName : String
  firstName : String
  lastName : String
  profilePictureUrl : String
deriving DecidableEq, Repr

/-- Mirror of the `ChatMessage` interface. -/
structure ChatMessage where
  messageId : String
  chatId : String
  sender : ChatUser
  content : String
  timestamp : Int
  isReceived : Bool
  isRead : Bool
  isDeleted : Bool
deriving DecidableEq, Repr

/-- Mirror of the `Chat` interface. -/
structure Chat where
  chatId : String
  participants : List ChatUser
  messages : List ChatMessage
deriving DecidableEq, Repr

/-- Mirror of the `ChatSummary` interface. -/
structure ChatSummary where
  chatId : String
  participants : List ChatUser
  latestMessage : ChatMessage
deriving DecidableEq, Repr

/-- Mirror of the `EmitRegisterUserParams` interface. -/
structure EmitRegisterUserParams where
  userId : String
  userType : String
  preferredName : String
  firstName : String
  lastName : String
  profilePictureUrl : String
deriving DecidableEq, Repr

/-- Mirror of the `EmitSendMessageParams` interface. -/
structure EmitSendMessageParams where
  roomId : String
  sender : ChatUser
  message : String
  timestamp : Int
deriving DecidableEq, Repr

/-- Identity fields read from the teacher context (`info` /
`getInfo()`): JS `string | undefined` fields become `Option String`. -/
structure TeacherInfo where
  teacherID : Option String
  preferredName : Option String
  firstName : Option String
  lastName : Option String
  profilePictureURL : Option String
deriving DecidableEq, Repr

/-- One socket emission performed by the hook (`socket.emit(name, payload)`).
The `receiveMessage` payload is `incomingChat.messages[0]`, which in JS is
`undefined` on an empty list, hence `Option ChatMessage` here. -/
inductive SocketEvent where
  | registerUser (params : EmitRegisterUserParams)
  | listChatRooms (userId : String)
  | listMessages (roomId : String) (userId : String)
  | sendMessage (params : EmitSendMessageParams)
  | readMessages (roomId : String) (unreadMessages : List String)
  | receiveMessage (message : Option ChatMessage)
deriving DecidableEq, Repr

/-- One console line written by the hook. -/
inductive ConsoleLine where
  | log (msg : String)
  | error (msg : String)
deriving DecidableEq, Repr

/-- The `useState` cells of the hook, plus whether `socketRef.current` is
non-null. -/
structure ChatState where
  socketExists : Bool
  isRegistering : Bool
  isRegistered : Bool
  chats : List (String × Chat)
  chatsList : List Chat
  chatSummaries : List ChatSummary
  areChatsLoading : Bool
  areChatsLoaded : Bool
  chatMessages : List ChatMessage
  areMessagesLoading : Bool
deriving DecidableEq, Repr

/-- The initial state of the hook: all flags false, all collections empty,
no socket yet. -/
def initialChatState : ChatState :=
  ⟨false, false, false, [], [], [], false, false, [], false⟩

/-- Result of running one handler or emit helper: the new state, the socket
emissions it performed, and the console lines it wrote, each in program
order. -/
structure StepResult where
  state : ChatState
  events : List SocketEvent
  console : List ConsoleLine
deriving DecidableEq, Repr

/-- JS truthiness of a `string | undefined` value: `undefined` and `""` are
falsy, every other string is truthy. -/
def truthy : Option String → Bool
  | none => false
  | some s => !s.isEmpty

/-- Embedding of `socketRef.current?.emit(e)`: the emission happens only when
a socket exists, and silently does nothing otherwise. -/
def socketEmitOpt (socketExists : Bool) (e : SocketEvent) : List SocketEvent :=
  if socketExists then [e] else []

/-- Embedding of the JS spread update `{...chats, [chatId]: c}` on the chats
object: an existing key keeps its position and its value is overwritten; a
new key is appended at the end. -/
def insertOrReplace (chats : List (String × Chat)) (key : String) (c : Chat) :
    List (String × Chat) :=
  if chats.any (fun p => p.1 == key) then
    chats.map (fun p => if p.1 == key then (key, c) else p)
  else
    chats ++ [(key, c)]

/-- Embedding of `chats[chatId]` lookup. -/
def lookupChat (chats : List (String × Chat)) (key : String) : Option Chat :=
  (chats.find? (fun p => p.1 == key)).map (fun p => p.2)

/-- Embedding of `emitRegisterUser`: sets the in-flight flag, then emits `registerUser`
through the optional socket (no console output on either path). -/
def emitRegisterUser (st : ChatState) (params : EmitRegisterUserParams) :
    StepResult :=
  let st := { st with isRegistering := true }
  ⟨st, socketEmitOpt st.socketExists (.registerUser params), []⟩

/-- Embedding of `emitListChats`: sets loading, clears loaded, then emits `listChatRooms`
through the optional socket. -/
def emitListChats (st : ChatState) (userId : String) : StepResult :=
  let st := { st with areChatsLoading := true, areChatsLoaded := false }
  ⟨st, socketEmitOpt st.socketExists (.listChatRooms userId), []⟩

/-- Handler `onUserRegistered`: clears the in-flight flag, marks registered,
then calls `emitListChats({userId})`. -/
def onUserRegistered (st : ChatState) (userId : String) : StepResult :=
  let st := { st with isRegistering := false, isRegistered := true }
  emitListChats st userId

/-- Handler `onRegisterUserError`: only writes a console error; no state
change and no emission. -/
def onRegisterUserError (st : ChatState) (error : String) : StepResult :=
  ⟨st, [], [.error ("Error registering user: " ++ error)]⟩

/-- Comparator of `onChatsList` as a boolean relation: the JS comparator
`(a, b) => b.latestMessage.timestamp - a.latestMessage.timestamp` orders `a`
before `b` exactly when `b.latestMessage.timestamp ≤ a.latestMessage.timestamp`
(descending; ties compare equal, and `toSorted` is stable). -/
def summaryDescLe (a b : ChatSummary) : Bool :=
  decide (b.latestMessage.timestamp ≤ a.latestMessage.timestamp)

/-- Handler `onChatsList`: stable-sorts the received summaries descending by
`latestMessage.timestamp`, replaces the held list wholesale, clears loading,
sets loaded. -/
def onChatsList (st : ChatState) (chatsList : List ChatSummary) : StepResult :=
  let sortedChats := chatsList.mergeSort summaryDescLe
  ⟨{ st with chatSummaries := sortedChats,
             areChatsLoading := false,
             areChatsLoaded := true }, [], []⟩

/-- Handler `onListChatsError`: only writes a console error. -/
def onListChatsError (st : ChatState) (error : String) : StepResult :=
  ⟨st, [], [.error ("Error listing chats: " ++ error)]⟩

/-- Embedding of `emitListMessages`: sets the messages-loading flag, then emits
`listMessages` through the optional socket. -/
def emitListMessages (st : ChatState) (roomId userId : String) : StepResult :=
  let st := { st with areMessagesLoading := true }
  ⟨st, socketEmitOpt st.socketExists (.listMessages roomId userId), []⟩

/-- Handler `onMessagesList`: both source branches store
`{...chats, [chatId]: {chatId, participants, messages: messagesList}}`, so the
update is a single `insertOrReplace`; then the fetched messages become the
displayed list and the loading flag clears. -/
def onMessagesList (st : ChatState) (chatId : String)
    (participants : List ChatUser) (messagesList : List ChatMessage) :
    StepResult :=
  let newChat : Chat := ⟨chatId, participants, messagesList⟩
  ⟨{ st with chats := insertOrReplace st.chats chatId newChat,
             chatMessages := messagesList,
             areMessagesLoading := false }, [], []⟩

/-- Embedding of `emitSendMessage`: emits `sendMessage` through the optional socket; no
state change. -/
def emitSendMessage (st : ChatState) (params : EmitSendMessageParams) :
    StepResult :=
  ⟨st, socketEmitOpt st.socketExists (.sendMessage params), []⟩

/-- Filter-and-collect loop of `emitReadMessages`: ids of the messages whose
sender is not the teacher and which are not yet read, in candidate order. -/
def unreadMessageIdsFor (teacherId : String)
    (unreadMessages : List ChatMessage) : List String :=
  (unreadMessages.filter
    (fun msg => msg.sender.userId != teacherId && !msg.isRead)).map
    (fun msg => msg.messageId)

/-- Tail of `emitReadMessages` once a teacher id has been resolved: builds the
unread-id list, then either emits `readMessages` or, when no socket exists,
writes "Socket not found" and emits nothing.  `console0` carries the console
lines already written by the resolution path. -/
def emitReadMessagesResolved (st : ChatState) (teacherId : String)
    (console0 : List ConsoleLine) (chatId : String)
    (unreadMessages : List ChatMessage) : StepResult :=
  let ids := unreadMessageIdsFor teacherId unreadMessages
  if st.socketExists then
    ⟨st, [.readMessages chatId ids], console0⟩
  else
    ⟨st, [], console0 ++ [.error "Socket not found"]⟩

/-- Embedding of `emitReadMessages`: resolves the teacher id first from `info.teacherID`,
falling back to `getInfo()?.teacherID` (with two console logs on that path);
when neither is truthy it writes a console error and returns before any
emission. -/
def emitReadMessages (st : ChatState) (info : TeacherInfo)
    (storedInfo : Option TeacherInfo) (chatId : String)
    (unreadMessages : List ChatMessage) : StepResult :=
  if truthy info.teacherID then
    emitReadMessagesResolved st (info.teacherID.getD "") [] chatId
      unreadMessages
  else
    let console0 : List ConsoleLine :=
      [.log "No teacherID...", .log "Getting stored info..."]
    let storedId := storedInfo.bind (fun i => i.teacherID)
    if truthy storedId then
      emitReadMessagesResolved st (storedId.getD "") console0 chatId
        unreadMessages
    else
      ⟨st, [], console0 ++ [.error "Sorry! No teacherID! Exiting..."]⟩

/-- Resolution rule of `emitReadMessages` in one place: the teacher id used
for the read receipt, or `none` when neither `info.teacherID` nor the stored
fallback is truthy. -/
def resolvedTeacherId (info : TeacherInfo) (storedInfo : Option TeacherInfo) :
    Option String :=
  if truthy info.teacherID then info.teacherID
  else
    let storedId := storedInfo.bind (fun i => i.teacherID)
    if truthy storedId then storedId else none

/-- Handler `onNewMessage`: stores the pushed conversation wholesale under its
chatId, shows its messages, and acknowledges by emitting `receiveMessage` with
`incomingChat.messages[0]` (embedded as `head?`) through the optional
socket. -/
def onNewMessage (st : ChatState) (incomingChat : Chat) : StepResult :=
  let st := { st with
    chats := insertOrReplace st.chats incomingChat.chatId incomingChat,
    chatMessages := incomingChat.messages }
  ⟨st, socketEmitOpt st.socketExists (.receiveMessage incomingChat.messages.head?), []⟩

/-- Guard of the registration branch of the effect: all four required identity
fields are truthy. -/
def identityComplete (info : TeacherInfo) : Bool :=
  truthy info.teacherID && truthy info.preferredName &&
    truthy info.firstName && truthy info.lastName

/-- Registration payload built by the effect from the context fields
(`profilePictureURL || ""` maps both `undefined` and `""` to `""`). -/
def registerParamsOf (info : TeacherInfo) : EmitRegisterUserParams :=
  ⟨info.teacherID.getD "", "teacher", info.preferredName.getD "",
    info.firstName.getD "", info.lastName.getD "",
    info.profilePictureURL.getD ""⟩

/-- One run of the `useEffect` body: ensures the socket exists, then, when not
registered and the identity is complete, calls `emitRegisterUser`; then, when
registered and `info.teacherID` is truthy, calls `emitListChats`. -/
def registrationEffect (st : ChatState) (info : TeacherInfo) : StepResult :=
  let st := { st with socketExists := true }
  let r1 : StepResult :=
    if !st.isRegistered && identityComplete info then
      emitRegisterUser st (registerParamsOf info)
    else ⟨st, [], []⟩
  let r2 : StepResult :=
    if r1.state.isRegistered && truthy info.teacherID then
      emitListChats r1.state (info.teacherID.getD "")
    else ⟨r1.state, [], []⟩
  ⟨r2.state, r1.events ++ r2.events, r1.console ++ r2.console⟩

/-- A sequence of effect runs: each list element is one invocation of the
effect (React re-runs it when a dependency changed), given the render's
`isRegistered` value and context fields at that invocation; emissions are
concatenated in order. -/
def effectTrace (st : ChatState) : List (Bool × TeacherInfo) → List SocketEvent
  | [] => []
  | (reg, info) :: rest =>
      let r := registrationEffect { st with isRegistered := reg } info
      r.events ++ effectTrace r.state rest

/-- Recognizer of `registerUser` emissions. -/
def isRegisterUserEvent : SocketEvent → Bool
  | .registerUser _ => true
  | _ => false

/-- Number of `registerUser` emissions in an emission list. -/
def countRegisterUser (evs : List SocketEvent) : Nat :=
  (evs.filter isRegisterUserEvent).length

/-- Number of incomplete-to-complete transitions of the identity along a run
sequence, starting from completeness state `prev`. -/
def completeTransitions : Bool → List (Bool × TeacherInfo) → Nat
  | _, [] => 0
  | prev, (_, info) :: rest =>
      let cur := identityComplete info
      (if !prev && cur then 1 else 0) + completeTransitions cur rest

/-! ### Helper lemmas about the chats-object embedding -/

/-- Writing the same entry twice with the spread update is the same as
writing it once. -/
theorem insertOrReplace_idem (l : List (String × Chat)) (k : String) (c : Chat) :
    insertOrReplace (insertOrReplace l k c) k c = insertOrReplace l k c := by
  by_cases h : l.any (fun p => p.1 == k)
  · have h1 : insertOrReplace l k c =
        l.map (fun p => if p.1 == k then (k, c) else p) := by
      simp [insertOrReplace, h]
    obtain ⟨p, hp, hpk⟩ := List.any_eq_true.mp h
    have h2 : (insertOrReplace l k c).any (fun p => p.1 == k) = true := by
      rw [h1, List.any_map]
      exact List.any_eq_true.mpr ⟨p, hp, by simp [Function.comp, hpk]⟩
    rw [insertOrReplace, if_pos h2, h1, List.map_map]
    apply List.map_congr_left
    intro a _
    by_cases ha : a.1 == k <;> simp [Function.comp, ha]
  · have h1 : insertOrReplace l k c = l ++ [(k, c)] := by
      simp [insertOrReplace, h]
    have hall : ∀ a ∈ l, (a.1 == k) = false := by
      intro a ha
      by_contra hc
      exact h (List.any_eq_true.mpr ⟨a, ha, by simpa using hc⟩)
    have h2 : (insertOrReplace l k c).any (fun p => p.1 == k) = true := by
      rw [h1]
      simp
    rw [insertOrReplace, if_pos h2, h1, List.map_append]
    have h3 : l.map (fun p => if p.1 == k then (k, c) else p) = l := by
      conv_rhs => rw [← List.map_id l]
      apply List.map_congr_left
      intro a ha
      simp [hall a ha]
    rw [h3]
    simp

/-- After the spread update, the updated key maps to the new conversation. -/
theorem lookupChat_insertOrReplace (l : List (String × Chat)) (k : String)
    (c : Chat) : lookupChat (insertOrReplace l k c) k = some c := by
  by_cases h : l.any (fun p => p.1 == k)
  · obtain ⟨p, hp, hpk⟩ := List.any_eq_true.mp h
    rw [insertOrReplace, if_pos h, lookupChat, List.find?_map]
    have hcomp : (fun q : String × Chat => q.1 == k) ∘
        (fun p : String × Chat => if p.1 == k then (k, c) else p) =
        fun p : String × Chat => p.1 == k := by
      funext q
      by_cases hq : q.1 == k <;> simp [Function.comp, hq]
    rw [hcomp]
    have hne : l.find? (fun p => p.1 == k) ≠ none := by
      intro hnone
      exact (List.find?_eq_none.mp hnone) p hp hpk
    obtain ⟨q, hq⟩ := Option.ne_none_iff_exists'.mp hne
    have hqk : q.1 = k := by simpa using List.find?_some hq
    rw [hq]
    simp [hqk]
  · have hall : ∀ a ∈ l, ¬ ((fun p : String × Chat => p.1 == k) a) := by
      intro a ha
      exact fun hc => h (List.any_eq_true.mpr ⟨a, ha, hc⟩)
    rw [insertOrReplace, if_neg h, lookupChat, List.find?_append,
      List.find?_eq_none.mpr hall]
    simp

/-! ### Claim theorems -/

/-- C4 counterexample: the claim says the registration-error handler clears
the in-flight flag, but on a state with `isRegistering = true` the handler
leaves it `true` (it only logs). -/
theorem C4_counterexample :
    (onRegisterUserError { initialChatState with isRegistering := true }
        "boom").state.isRegistering = true := rfl

/-- C4 amended: the registration-error handler changes no state at all (in
particular the in-flight flag keeps its prior value and the registered flag
stays false if it was false), emits nothing, and writes exactly one console
error; retry stays possible because the registration effect is gated only on
the registered flag. -/
theorem C4_amended_register_error_only_logs (st : ChatState) (e : String) :
    (onRegisterUserError st e).state = st ∧
    (onRegisterUserError st e).events = [] ∧
    (onRegisterUserError st e).console =
      [.error ("Error registering user: " ++ e)] :=
  ⟨rfl, rfl, rfl⟩

/-- C5: on a successful-registration event, the handler clears the in-flight
flag, sets the registered flag, and emits exactly one `listChatRooms` request
for the same userId, with no caller action. -/
theorem C5_registration_success_triggers_chat_list (st : ChatState)
    (userId : String) (hs : st.socketExists = true) :
    (onUserRegistered st userId).state.isRegistering = false ∧
    (onUserRegistered st userId).state.isRegistered = true ∧
    (onUserRegistered st userId).events = [.listChatRooms userId] := by
  refine ⟨rfl, rfl, ?_⟩
  simp [onUserRegistered, emitListChats, socketEmitOpt, hs]

/-- C5 witness at a concrete registered userId. -/
theorem C5_witness :
    (onUserRegistered { initialChatState with socketExists := true }
        "t1").events = [.listChatRooms "t1"] :=
  (C5_registration_success_triggers_chat_list
    { initialChatState with socketExists := true } "t1" rfl).2.2

/-- C7: applying the same `messagesList` response twice leaves the whole hook
state (in particular the stored conversation for that chatId) identical to
applying it once. -/
theorem C7_messages_list_idempotent (st : ChatState) (chatId : String)
    (participants : List ChatUser) (messagesList : List ChatMessage) :
    onMessagesList (onMessagesList st chatId participants messagesList).state
        chatId participants messagesList =
      onMessagesList st chatId participants messagesList := by
  simp [onMessagesList, insertOrReplace_idem]

/-- C2: an inbound push stores the pushed conversation wholesale under its id
(creating the entry when absent, replacing participants and messages when
present), shows its messages, and performs exactly one acknowledgment
emission carrying the first message of the pushed list. -/
theorem C2_push_replaces_wholesale_and_acks_once (st : ChatState) (c : Chat)
    (m : ChatMessage) (rest : List ChatMessage)
    (hs : st.socketExists = true) (hm : c.messages = m :: rest) :
    lookupChat (onNewMessage st c).state.chats c.chatId = some c ∧
    (onNewMessage st c).state.chatMessages = c.messages ∧
    (onNewMessage st c).events = [.receiveMessage (some m)] := by
  refine ⟨?_, rfl, ?_⟩
  · simpa [onNewMessage] using
      lookupChat_insertOrReplace st.chats c.chatId c
  · simp [onNewMessage, socketEmitOpt, hs, hm]

/-- C2 witness: a concrete push of a one-message conversation into the empty
store is acknowledged with that message and stored under its id. -/
theorem C2_witness :
    lookupChat (onNewMessage { initialChatState with socketExists := true }
        ⟨"c1", [], [⟨"m1", "c1", ⟨"t2", "teacher", "A", "B", "C", ""⟩, "hi",
          5, false, false, false⟩]⟩).state.chats "c1" =
      some ⟨"c1", [], [⟨"m1", "c1", ⟨"t2", "teacher", "A", "B", "C", ""⟩, "hi",
        5, false, false, false⟩]⟩ :=
  (C2_push_replaces_wholesale_and_acks_once
    { initialChatState with socketExists := true }
    ⟨"c1", [], [⟨"m1", "c1", ⟨"t2", "teacher", "A", "B", "C", ""⟩, "hi",
      5, false, false, false⟩]⟩
    ⟨"m1", "c1", ⟨"t2", "teacher", "A", "B", "C", ""⟩, "hi",
      5, false, false, false⟩ [] rfl rfl).1

/-- C10: a push whose conversation carries an empty message list is accepted
with no guard: the unguarded `messages[0]` access (embedded as `head?`)
yields `none`, yet the acknowledgment emission still happens — carrying
`none` — and the displayed message list is set to empty. -/
theorem C10_empty_push_acks_none (st : ChatState) (c : Chat)
    (hs : st.socketExists = true) (hm : c.messages = []) :
    c.messages.head? = none ∧
    (onNewMessage st c).events = [.receiveMessage none] ∧
    (onNewMessage st c).state.chatMessages = [] := by
  refine ⟨by simp [hm], ?_, by simp [onNewMessage, hm]⟩
  simp [onNewMessage, socketEmitOpt, hs, hm]

/-- C10 witness: pushing a concrete conversation with zero messages still
acknowledges, with payload `none`. -/
theorem C10_witness :
    (onNewMessage { initialChatState with socketExists := true }
        ⟨"c1", [], []⟩).events = [.receiveMessage none] :=
  (C10_empty_push_acks_none { initialChatState with socketExists := true }
    ⟨"c1", [], []⟩ rfl rfl).2.1

/-- C8: when neither the live `info.teacherID` nor the stored fallback is
truthy, `emitReadMessages` emits nothing, leaves the state unchanged, and
writes a console error. -/
theorem C8_markRead_aborts_without_id (st : ChatState) (info : TeacherInfo)
    (storedInfo : Option TeacherInfo) (chatId : String)
    (unreadMessages : List ChatMessage)
    (h : resolvedTeacherId info storedInfo = none) :
    (emitReadMessages st info storedInfo chatId unreadMessages).events = [] ∧
    (emitReadMessages st info storedInfo chatId unreadMessages).state = st ∧
    ConsoleLine.error "Sorry! No teacherID! Exiting..." ∈
      (emitReadMessages st info storedInfo chatId unreadMessages).console := by
  by_cases h1 : truthy info.teacherID
  · exfalso
    rw [resolvedTeacherId, if_pos h1] at h
    cases hid : info.teacherID with
    | none => rw [hid] at h1; exact absurd h1 (by simp [truthy])
    | some s => rw [hid] at h; exact Option.noConfusion h
  · by_cases h2 : truthy (storedInfo.bind (fun i => i.teacherID))
    · exfalso
      rw [resolvedTeacherId, if_neg h1] at h
      simp only [h2, if_pos] at h
      cases hid : storedInfo.bind (fun i => i.teacherID) with
      | none => rw [hid] at h2; exact absurd h2 (by simp [truthy])
      | some s => rw [hid] at h; exact Option.noConfusion h
    · simp [emitReadMessages, h1, h2]

/-- C8 witness: with no teacherID anywhere, the concrete call emits nothing
and errors. -/
theorem C8_witness :
    (emitReadMessages initialChatState ⟨none, none, none, none, none⟩ none
        "c1" []).events = [] :=
  (C8_markRead_aborts_without_id initialChatState
    ⟨none, none, none, none, none⟩ none "c1" [] rfl).1

/-- C3: with a resolvable current-user id and a live socket, `markRead`
emits exactly one `readMessages` request pairing the given conversation id
with the ids of the candidates sent by someone else and not yet read, in
candidate order, and changes no state. -/
theorem C3_markRead_emits_filtered_ids (st : ChatState) (info : TeacherInfo)
    (storedInfo : Option TeacherInfo) (chatId : String)
    (unreadMessages : List ChatMessage) (tid : String)
    (h : resolvedTeacherId info storedInfo = some tid)
    (hs : st.socketExists = true) :
    (emitReadMessages st info storedInfo chatId unreadMessages).events =
      [.readMessages chatId ((unreadMessages.filter
          (fun msg => msg.sender.userId != tid && !msg.isRead)).map
        (fun msg => msg.messageId))] ∧
    (emitReadMessages st info storedInfo chatId unreadMessages).state = st := by
  by_cases h1 : truthy info.teacherID
  · rw [resolvedTeacherId, if_pos h1] at h
    rw [h] at h1
    simp [emitReadMessages, emitReadMessagesResolved, h1, h, hs,
      unreadMessageIdsFor]
  · rw [resolvedTeacherId, if_neg h1] at h
    by_cases h2 : truthy (storedInfo.bind (fun i => i.teacherID))
    · simp only [h2, if_pos] at h
      rw [h] at h2
      simp [emitReadMessages, emitReadMessagesResolved, h1, h2, h, hs,
        unreadMessageIdsFor]
    · exfalso
      simp only [h2, if_neg, Bool.not_eq_true] at h
      exact Option.noConfusion h

/-- C3 witness at the spec's own example: current user `t1`, one message from
`t1` unread, one from `t2` unread, one from `t2` read — exactly the second
message's id is emitted. -/
theorem C3_witness :
    (emitReadMessages { initialChatState with socketExists := true }
        ⟨some "t1", some "A", some "B", some "C", none⟩ none "c1"
        [⟨"m1", "c1", ⟨"t1", "teacher", "A", "B", "C", ""⟩, "x", 1,
            false, false, false⟩,
          ⟨"m2", "c1", ⟨"t2", "student", "D", "E", "F", ""⟩, "y", 2,
            false, false, false⟩,
          ⟨"m3", "c1", ⟨"t2", "student", "D", "E", "F", ""⟩, "z", 3,
            false, true, false⟩]).events =
      [.readMessages "c1" ["m2"]] := by
  have h := (C3_markRead_emits_filtered_ids
    { initialChatState with socketExists := true }
    ⟨some "t1", some "A", some "B", some "C", none⟩ none "c1"
    [⟨"m1", "c1", ⟨"t1", "teacher", "A", "B", "C", ""⟩, "x", 1,
        false, false, false⟩,
      ⟨"m2", "c1", ⟨"t2", "student", "D", "E", "F", ""⟩, "y", 2,
        false, false, false⟩,
      ⟨"m3", "c1", ⟨"t2", "student", "D", "E", "F", ""⟩, "z", 3,
        false, true, false⟩] "t1" rfl rfl).1
  rw [h]
  rfl

/-- C9 counterexample: the claim says every outbound operation without a
channel is a no-op *with a logged error*, but `emitRegisterUser` on the
initial socketless state skips the emission with no console output at all. -/
theorem C9_counterexample :
    (emitRegisterUser initialChatState
        ⟨"t1", "teacher", "A", "B", "C", ""⟩).events = [] ∧
    (emitRegisterUser initialChatState
        ⟨"t1", "teacher", "A", "B", "C", ""⟩).console = [] :=
  ⟨rfl, rfl⟩

/-- C9 amended: with no channel every outbound operation emits nothing and
throws nothing, but only the read-receipt path logs an error ("Socket not
found"); register, list-chats, list-messages and send skip the emission
silently (their flag updates preceding the emission still happen). -/
theorem C9_amended_no_socket_skips_silently (st : ChatState)
    (hs : st.socketExists = false) (p : EmitRegisterUserParams)
    (uid roomId chatId : String) (sp : EmitSendMessageParams)
    (info : TeacherInfo) (storedInfo : Option TeacherInfo)
    (msgs : List ChatMessage) (tid : String)
    (hres : resolvedTeacherId info storedInfo = some tid) :
    (emitRegisterUser st p).events = [] ∧
    (emitRegisterUser st p).console = [] ∧
    (emitListChats st uid).events = [] ∧
    (emitListChats st uid).console = [] ∧
    (emitListMessages st roomId uid).events = [] ∧
    (emitListMessages st roomId uid).console = [] ∧
    (emitSendMessage st sp).events = [] ∧
    (emitSendMessage st sp).console = [] ∧
    (emitReadMessages st info storedInfo chatId msgs).events = [] ∧
    ConsoleLine.error "Socket not found" ∈
      (emitReadMessages st info storedInfo chatId msgs).console := by
  refine ⟨?_, rfl, ?_, rfl, ?_, rfl, ?_, rfl, ?_, ?_⟩
  · simp [emitRegisterUser, socketEmitOpt, hs]
  · simp [emitListChats, socketEmitOpt, hs]
  · simp [emitListMessages, socketEmitOpt, hs]
  · simp [emitSendMessage, socketEmitOpt, hs]
  · by_cases h1 : truthy info.teacherID
    · rw [resolvedTeacherId, if_pos h1] at hres
      rw [hres] at h1
      simp [emitReadMessages, emitReadMessagesResolved, hres, h1, hs]
    · rw [resolvedTeacherId, if_neg h1] at hres
      by_cases h2 : truthy (storedInfo.bind (fun i => i.teacherID))
      · simp only [h2, if_pos] at hres
        rw [hres] at h2
        simp [emitReadMessages, emitReadMessagesResolved, h1, h2, hres, hs]
      · exfalso
        simp only [h2, if_neg, Bool.not_eq_true] at hres
        exact Option.noConfusion hres
  · by_cases h1 : truthy info.teacherID
    · rw [resolvedTeacherId, if_pos h1] at hres
      rw [hres] at h1
      simp [emitReadMessages, emitReadMessagesResolved, hres, h1, hs]
    · rw [resolvedTeacherId, if_neg h1] at hres
      by_cases h2 : truthy (storedInfo.bind (fun i => i.teacherID))
      · simp only [h2, if_pos] at hres
        rw [hres] at h2
        simp [emitReadMessages, emitReadMessagesResolved, h1, h2, hres, hs]
      · exfalso
        simp only [h2, if_neg, Bool.not_eq_true] at hres
        exact Option.noConfusion hres

/-- C9 amended witness at concrete socketless inputs. -/
theorem C9_amended_witness :
    (emitReadMessages initialChatState
        ⟨some "t1", some "A", some "B", some "C", none⟩ none "c1" []).events =
      [] :=
  (C9_amended_no_socket_skips_silently initialChatState rfl
    ⟨"t1", "teacher", "A", "B", "C", ""⟩ "t1" "r1" "c1"
    ⟨"r1", ⟨"t1", "teacher", "A", "B", "C", ""⟩, "hi", 1⟩
    ⟨some "t1", some "A", some "B", some "C", none⟩ none [] "t1"
    rfl).2.2.2.2.2.2.2.2.1

/-- First identity snapshot of the C6 counterexample trace: complete
identity, no profile picture yet. -/
def infoCompleteNoPic : TeacherInfo :=
  ⟨some "t1", some "A", some "B", some "C", none⟩

/-- Second identity snapshot of the C6 counterexample trace: the same four
required fields, but the profile picture — also an effect dependency — has
now arrived, so the effect runs again. -/
def infoCompleteWithPic : TeacherInfo :=
  ⟨some "t1", some "A", some "B", some "C", some "pic"⟩

/-- C6 counterexample trace: two effect runs while still unregistered (the
server has not yet answered), with the identity complete in both. -/
def traceC6 : List (Bool × TeacherInfo) :=
  [(false, infoCompleteNoPic), (false, infoCompleteWithPic)]

/-- C6 counterexample: the claim caps `registerUser` emissions at one per
incomplete-to-complete identity transition, but on a trace with a single such
transition (identity complete in both runs) and registration still pending,
two `registerUser` emissions occur — the guard checks only the registered
flag, not the in-flight flag. -/
theorem C6_counterexample :
    completeTransitions false traceC6 = 1 ∧
    countRegisterUser (effectTrace initialChatState traceC6) = 2 := by
  constructor <;> rfl

/-- C6 amended: once the registered flag is true, an effect run emits no
`registerUser` at all; while it is false and the identity is complete, each
effect run (that is, each dependency change, not merely each
incomplete-to-complete transition) emits exactly one `registerUser`. -/
theorem C6_amended_registration_guard (st : ChatState) (info : TeacherInfo) :
    (st.isRegistered = true →
      countRegisterUser (registrationEffect st info).events = 0) ∧
    (st.isRegistered = false → identityComplete info = true →
      countRegisterUser (registrationEffect st info).events = 1) := by
  constructor
  · intro hreg
    by_cases ht : truthy info.teacherID <;>
      simp [registrationEffect, emitRegisterUser, emitListChats,
        socketEmitOpt, countRegisterUser, isRegisterUserEvent, hreg, ht]
  · intro hreg hcomp
    simp [registrationEffect, emitRegisterUser, emitListChats,
      socketEmitOpt, countRegisterUser, isRegisterUserEvent, hreg, hcomp]

/-- C6 amended witness: a concrete unregistered run with complete identity
emits exactly one `registerUser`. -/
theorem C6_amended_witness :
    countRegisterUser
      (registrationEffect initialChatState infoCompleteNoPic).events = 1 :=
  (C6_amended_registration_guard initialChatState infoCompleteNoPic).2
    rfl rfl

/-- Transitivity of the descending-timestamp comparator. -/
theorem summaryDescLe_trans (a b c : ChatSummary) :
    summaryDescLe a b → summaryDescLe b c → summaryDescLe a c := by
  intro hab hbc
  simp only [summaryDescLe, decide_eq_true_eq] at *
  exact le_trans hbc hab

/-- Totality of the descending-timestamp comparator. -/
theorem summaryDescLe_total (a b : ChatSummary) :
    summaryDescLe a b || summaryDescLe b a := by
  simp only [summaryDescLe, Bool.or_eq_true, decide_eq_true_eq]
  exact le_total _ _

/-- C1: after a `chatsList` response the stored summary list is a
permutation of the input, is sorted in descending order of
`latestMessage.timestamp`, and for every timestamp the subsequence of
summaries carrying that timestamp equals the corresponding subsequence of
the input — so summaries with equal timestamps keep their server-provided
relative order (stable sort). -/
theorem C1_chats_list_sorted_stable (st : ChatState)
    (chatsList : List ChatSummary) :
    ((onChatsList st chatsList).state.chatSummaries.Pairwise
      (fun a b => b.latestMessage.timestamp ≤ a.latestMessage.timestamp)) ∧
    (onChatsList st chatsList).state.chatSummaries.Perm chatsList ∧
    (∀ t : Int,
      (onChatsList st chatsList).state.chatSummaries.filter
          (fun c => c.latestMessage.timestamp == t) =
        chatsList.filter (fun c => c.latestMessage.timestamp == t)) := by
  have hstate : (onChatsList st chatsList).state.chatSummaries =
      chatsList.mergeSort summaryDescLe := rfl
  refine ⟨?_, ?_, ?_⟩
  · rw [hstate]
    have hpw := List.sorted_mergeSort summaryDescLe_trans summaryDescLe_total
      chatsList
    exact hpw.imp (fun hab => by
      simpa [summaryDescLe, decide_eq_true_eq] using hab)
  · rw [hstate]
    exact List.mergeSort_perm chatsList summaryDescLe
  · intro t
    rw [hstate]
    set P : ChatSummary → Bool := fun c => c.latestMessage.timestamp == t
      with hP
    have hsub : List.Sublist (chatsList.filter P) chatsList :=
      List.filter_sublist _
    have hpw : (chatsList.filter P).Pairwise
        (fun a b => summaryDescLe a b = true) := by
      apply List.pairwise_of_forall_mem_list
      intro a ha b hb
      have ha' : a.latestMessage.timestamp = t := by
        have := List.of_mem_filter ha
        simpa [hP] using this
      have hb' : b.latestMessage.timestamp = t := by
        have := List.of_mem_filter hb
        simpa [hP] using this
      simp [summaryDescLe, ha', hb']
    have hstable : List.Sublist (chatsList.filter P)
        (chatsList.mergeSort summaryDescLe) :=
      List.sublist_mergeSort summaryDescLe_trans summaryDescLe_total hpw hsub
    have hself : (chatsList.filter P).filter P = chatsList.filter P := by
      rw [List.filter_eq_self]
      intro a ha
      exact List.of_mem_filter ha
    have hsub2 : List.Sublist (chatsList.filter P)
        ((chatsList.mergeSort summaryDescLe).filter P) := by
      have := List.Sublist.filter P hstable
      rwa [hself] at this
    have hlen : ((chatsList.mergeSort summaryDescLe).filter P).length =
        (chatsList.filter P).length :=
      ((List.mergeSort_perm chatsList summaryDescLe).filter P).length_eq
    exact (hsub2.eq_of_length hlen.symm).symm
